import Mathlib

/-
Shallow embedding of the Idea2Prompt backend (src/server.js): an Express
server with user registration/login (bcrypt password hashing, JWT bearer
tokens), a Gemini-proxying prompt-generation endpoint, and per-user
listing/deletion of stored prompts backed by a MySQL database.

Modelling conventions:
- The MySQL database is a record of lists (`DB`), one per table, with
  explicit auto-increment counters; each handler is a pure function from
  the request data and the current `DB` to a response and the next `DB`.
- Request-body fields are `Option String`; JavaScript truthiness of a
  string field (absent or empty counts as false) is `truthy`.
- The `jsonwebtoken` library is modelled by `TokenStr`: `jwt.sign` yields
  a `.valid` token recording the claims, the issue time and the signing
  secret; every other string a caller may present is `.garbage`.
  Verification succeeds exactly when the secret matches and the 24-hour
  expiry (the literal "24h" passed as expiresIn in server.js) has not
  elapsed, and does not distinguish the failure causes.
- The `bcrypt` library is modelled by a deterministic injective stand-in;
  no claim here concerns hash secrecy.
- The external Gemini endpoint is an oracle parameter
  `gemini : GeminiRequest → GeminiResult`; handlers additionally return
  the list of requests submitted to the oracle, so that "no upstream call
  was made" is an observable fact.
- Storage faults (a db.query throwing) are injected through a
  `storageErr : Option String` parameter carrying the thrown message.
-/

namespace Idea2Prompt

/-- JavaScript truthiness of an optional string body field: undefined and
the empty string are falsy, every other string is truthy. -/
def truthy : Option String → Bool
  | none => false
  | some s => !(s == "")

/-- The ASCII fragment of the JavaScript WhiteSpace and LineTerminator
productions, as recognised by String.prototype.trim. -/
def isJsWhitespace (c : Char) : Bool :=
  c = ' ' || c = '\t' || c = '\n' || c = '\r' || c = '\x0b' || c = '\x0c'

/-- Model of String.prototype.trim: strip leading and trailing
whitespace. Structural recursion over the character list so that concrete
inputs evaluate in the kernel. -/
def jsTrim (s : String) : String :=
  String.mk (((s.data.dropWhile isJsWhitespace).reverse.dropWhile isJsWhitespace).reverse)

/-- Accumulator loop of String.prototype.split with a one-character
separator. -/
def jsSplitGo (sep : Char) : List Char → List Char → List String
  | [], acc => [String.mk acc.reverse]
  | c :: cs, acc =>
    if c = sep then String.mk acc.reverse :: jsSplitGo sep cs []
    else jsSplitGo sep cs (c :: acc)

/-- Model of String.prototype.split with a one-character separator:
the empty string splits to a single empty piece, and adjacent separators
produce empty pieces, as in JavaScript. -/
def jsSplit (sep : Char) (s : String) : List String :=
  jsSplitGo sep s.data []

/-! ### Data model (MySQL tables of server.js) -/

/-- Row of the registered_users table. -/
structure User where
  id : Nat
  username : String
  email : String
  password_hash : String
deriving DecidableEq

/-- Row of the prompts table; created_at is the insertion timestamp
(MySQL NOW(), modelled as a Nat passed to the handler). -/
structure Prompt where
  id : Nat
  user_id : Nat
  category : String
  idea : String
  generated_prompt : String
  created_at : Nat
deriving DecidableEq

/-- Row of the login_history table. -/
structure LoginAttempt where
  user_id : Nat
  success : Bool
deriving DecidableEq

/-- The whole database: the three tables plus their auto-increment
counters. -/
structure DB where
  registered_users : List User
  nextUserId : Nat
  prompts : List Prompt
  nextPromptId : Nat
  login_history : List LoginAttempt
deriving DecidableEq

/-- A fresh database with MySQL auto-increment counters starting at 1. -/
def emptyDB : DB :=
  { registered_users := [], nextUserId := 1, prompts := [], nextPromptId := 1,
    login_history := [] }

/-! ### Token issuer/verifier (model of the jsonwebtoken library) -/

/-- The JWT payload signed by server.js: userId and username. -/
structure TokenClaims where
  userId : Nat
  username : String
deriving DecidableEq

/-- Model of a token string: either the output of jwt.sign (claims,
issued-at time, signing secret) or any other string (malformed). -/
inductive TokenStr where
  | valid (claims : TokenClaims) (iat : Nat) (secret : String)
  | garbage (raw : String)
deriving DecidableEq

/-- The expiresIn "24h" option of jwt.sign, in seconds. -/
def expiresInSeconds : Nat := 24 * 60 * 60

/-- Model of jwt.sign with expiresIn "24h". -/
def jwtSign (claims : TokenClaims) (secret : String) (now : Nat) : TokenStr :=
  .valid claims now secret

/-- Model of jwt.verify: yields the claims when the signature matches the
secret and the 24-hour expiry has not elapsed; yields none (a single
undistinguished failure) for a wrong secret, an expired token, or a
malformed token. -/
def jwtVerify (t : TokenStr) (secret : String) (now : Nat) : Option TokenClaims :=
  match t with
  | .valid c iat s => if s = secret ∧ now < iat + expiresInSeconds then some c else none
  | .garbage _ => none

/-- Token issuance as done by the register and login handlers:
jwt.sign with payload userId and username. -/
def issueToken (userId : Nat) (username : String) (secret : String) (now : Nat) : TokenStr :=
  jwtSign { userId := userId, username := username } secret now

/-! ### Password hasher (model of the bcrypt library) -/

/-- Model of bcrypt.hash with SALT_ROUNDS = 10: a deterministic injective
stand-in (no claim here concerns hash secrecy). -/
def bcryptHash (pw : String) : String := "$2b$10$" ++ pw

/-- Model of bcrypt.compare: true exactly on the hash of the plaintext. -/
def bcryptCompare (pw h : String) : Bool := h == bcryptHash pw

/-! ### Auth middleware (authenticateToken in server.js) -/

/-- The token extraction of authenticateToken:
authHeader and authHeader.split(" ")[1], then the !token check.
Yields none (a 401) when the header is absent, empty, has no second
space-separated piece, or that piece is the empty string. -/
def extractToken (h : Option String) : Option String :=
  match h with
  | none => none
  | some s =>
    match (jsSplit ' ' s).get? 1 with
    | none => none
    | some t => if t = "" then none else some t

/-- Outcome-polymorphic protected-endpoint runner: authenticateToken
followed by the handler. The string presented on the wire is interpreted
as a token by the decoding map dec (the jwt library's parse). When
extraction fails the 401 outcome is returned; when verification fails the
403 outcome is returned; only otherwise does the handler run. -/
def runProtected {α : Type} (dec : String → TokenStr) (secret : String) (now : Nat)
    (authHeader : Option String) (onMissing onInvalid : α)
    (handler : TokenClaims → α) : α :=
  match extractToken authHeader with
  | none => onMissing
  | some t =>
    match jwtVerify (dec t) secret now with
    | none => onInvalid
    | some u => handler u

/-! ### Generation mediator (generateAIPrompt in server.js) -/

/-- Fixed generation parameters of the request body. Temperature and topP
are the rational values of the JavaScript literals 0.7 and 0.95. -/
structure GenerationConfig where
  temperature : ℚ
  topK : Nat
  topP : ℚ
  maxOutputTokens : Nat
deriving DecidableEq

/-- One part of a request content: a text segment. -/
structure ReqPart where
  text : String
deriving DecidableEq

/-- One content of a request: its parts. -/
structure ReqContent where
  parts : List ReqPart
deriving DecidableEq

/-- The JSON body sent to the Gemini endpoint. -/
structure GeminiRequest where
  contents : List ReqContent
  generationConfig : GenerationConfig
deriving DecidableEq

/-- A part of a response candidate; text may be absent. -/
structure GeminiPart where
  text : Option String
deriving DecidableEq

/-- The content of a response candidate; parts may be absent. -/
structure GeminiContent where
  parts : Option (List GeminiPart)
deriving DecidableEq

/-- A response candidate; content may be absent. -/
structure GeminiCandidate where
  content : Option GeminiContent
deriving DecidableEq

/-- The decoded JSON of a successful Gemini response; candidates may be
absent. -/
structure GeminiResponse where
  candidates : Option (List GeminiCandidate)
deriving DecidableEq

/-- Outcome of the single fetch to the Gemini endpoint: a non-ok HTTP
status with body, a transport error (fetch threw), or a decoded body. -/
inductive GeminiResult where
  | httpError (status : Nat) (body : String)
  | netError (msg : String)
  | ok (data : GeminiResponse)
deriving DecidableEq

/-- Text of the meta-prompt template before the category. -/
def mpHead : String :=
  "\nYou are an expert prompt engineer. Your task is to generate a clear, detailed, and actionable AI prompt based on the user's input.\n\nCategory: \""

/-- Text of the meta-prompt template between the category and the idea. -/
def mpMid : String := "\"\nUser's Idea: \""

/-- Text of the meta-prompt template after the idea. -/
def mpTail : String :=
  "\"\n\nCreate a comprehensive prompt that an AI assistant can use to provide the best possible response. The prompt should be specific and well-structured.\n\nGenerated Prompt:"

/-- The metaPrompt template literal of generateAIPrompt: the category and
the idea are embedded verbatim. -/
def metaPrompt (idea category : String) : String :=
  mpHead ++ category ++ mpMid ++ idea ++ mpTail

/-- The fixed generationConfig of generateAIPrompt: temperature 0.7,
topK 40, topP 0.95, maxOutputTokens 1024. -/
def geminiGenerationConfig : GenerationConfig :=
  { temperature := 7/10, topK := 40, topP := 95/100, maxOutputTokens := 1024 }

/-- The requestBody of generateAIPrompt: a single content with a single
part holding the meta-prompt, plus the fixed generation config. -/
def buildGeminiRequest (idea category : String) : GeminiRequest :=
  { contents := [{ parts := [{ text := metaPrompt idea category }] }],
    generationConfig := geminiGenerationConfig }

/-- The optional-chaining extraction
data.candidates[0].content.parts[0].text of generateAIPrompt, before the
trim. -/
def rawFirstText (data : GeminiResponse) : Option String := do
  let cs ← data.candidates
  let c ← cs.head?
  let content ← c.content
  let ps ← content.parts
  let p ← ps.head?
  p.text

/-- The generatedText of generateAIPrompt: the raw extraction with
surrounding whitespace trimmed. -/
def generatedTextOf (data : GeminiResponse) : Option String :=
  (rawFirstText data).map jsTrim

/-- generateAIPrompt: build the request, submit it once to the external
endpoint, and either return the trimmed extracted text or throw. The
second component is the list of requests submitted (always exactly one).
An absent extraction and an empty trimmed extraction both fail the
JavaScript !generatedText check. -/
def generateAIPrompt (gemini : GeminiRequest → GeminiResult) (idea category : String) :
    Except String String × List GeminiRequest :=
  let req := buildGeminiRequest idea category
  match gemini req with
  | .httpError status _ =>
    (.error ("Gemini API request failed: " ++ toString status), [req])
  | .netError msg => (.error msg, [req])
  | .ok data =>
    match generatedTextOf data with
    | none => (.error "No valid response generated from Gemini API", [req])
    | some t =>
      if t = "" then (.error "No valid response generated from Gemini API", [req])
      else (.ok t, [req])

/-! ### Response records (the JSON bodies plus the HTTP status) -/

/-- The user object echoed by register and login. -/
structure UserView where
  id : Nat
  username : String
  email : String
deriving DecidableEq

/-- Response of POST /api/register. -/
structure RegisterResponse where
  status : Nat
  error : Option String := none
  message : Option String := none
  token : Option TokenStr := none
  user : Option UserView := none
deriving DecidableEq

/-- Response of POST /api/login. -/
structure LoginResponse where
  status : Nat
  error : Option String := none
  message : Option String := none
  token : Option TokenStr := none
  user : Option UserView := none
deriving DecidableEq

/-- Response of POST /api/generate-prompt. -/
structure GenPromptResponse where
  status : Nat
  error : Option String := none
  details : Option String := none
  success : Option Bool := none
  id : Option Nat := none
  prompt : Option String := none
deriving DecidableEq

/-- Response of GET /api/prompts. -/
structure ListResponse where
  status : Nat
  error : Option String := none
  results : Option (List Prompt) := none
deriving DecidableEq

/-- Response of DELETE /api/prompts/:id. -/
structure DeleteResponse where
  status : Nat
  error : Option String := none
  message : Option String := none
deriving DecidableEq

/-! ### Handlers -/

/-- POST /api/register. Field-presence check, duplicate check by a prior
SELECT, bcrypt hash, INSERT, then a signed token for the new id. -/
def register (db : DB) (username email password : Option String)
    (secret : String) (now : Nat) (storageErr : Option String) :
    RegisterResponse × DB :=
  if truthy username && truthy email && truthy password then
    match storageErr with
    | some _ => ({ status := 500, error := some "Server error during registration" }, db)
    | none =>
      let un := username.getD ""
      let em := email.getD ""
      let pw := password.getD ""
      let existingUsers := db.registered_users.filter (fun u => u.email == em || u.username == un)
      if existingUsers.length > 0 then
        ({ status := 400, error := some "Email or username already exists" }, db)
      else
        let insertId := db.nextUserId
        let newUser : User :=
          { id := insertId, username := un, email := em, password_hash := bcryptHash pw }
        ({ status := 201, message := some "User registered successfully",
           token := some (issueToken insertId un secret now),
           user := some { id := insertId, username := un, email := em } },
         { db with registered_users := db.registered_users ++ [newUser],
                   nextUserId := insertId + 1 })
  else
    ({ status := 400, error := some "All fields are required" }, db)

/-- POST /api/login. SELECT by email (first row), bcrypt compare, a
login_history INSERT on every attempt that found a user, then 401 or a
token. -/
def login (db : DB) (email password : Option String)
    (secret : String) (now : Nat) (storageErr : Option String) :
    LoginResponse × DB :=
  if truthy email && truthy password then
    match storageErr with
    | some _ => ({ status := 500, error := some "Server error during login" }, db)
    | none =>
      let em := email.getD ""
      let pw := password.getD ""
      match db.registered_users.find? (fun u => u.email == em) with
      | none => ({ status := 401, error := some "Invalid credentials" }, db)
      | some user =>
        let validPassword := bcryptCompare pw user.password_hash
        let db2 : DB :=
          { db with login_history :=
              db.login_history ++ [{ user_id := user.id, success := validPassword }] }
        if validPassword then
          ({ status := 200, message := some "Login successful",
             token := some (issueToken user.id user.username secret now),
             user := some { id := user.id, username := user.username, email := user.email } },
           db2)
        else
          ({ status := 401, error := some "Invalid credentials" }, db2)
  else
    ({ status := 400, error := some "Email and password are required" }, db)

/-- The !idea or idea.trim().length === 0 check of the generate-prompt
handler: absent, empty or whitespace-only. -/
def ideaEmpty : Option String → Bool
  | none => true
  | some s => jsTrim s == ""

/-- The category or "General" default of the generate-prompt handler
(JavaScript falsiness: absent or empty string). -/
def defaultCategory : Option String → String
  | none => "General"
  | some c => if c = "" then "General" else c

/-- POST /api/generate-prompt, after authentication. Validation, then the
mediator call, then the INSERT, all failures collapsing to the single
catch that returns 500 with the thrown message as details. The third
component is the list of Gemini requests submitted. -/
def generatePromptHandler (db : DB) (userId : Nat) (idea category : Option String)
    (gemini : GeminiRequest → GeminiResult) (storageErr : Option String) (now : Nat) :
    GenPromptResponse × DB × List GeminiRequest :=
  if ideaEmpty idea then
    ({ status := 400, error := some "Idea is required and cannot be empty" }, db, [])
  else
    let ideaT := jsTrim (idea.getD "")
    let cat := defaultCategory category
    match generateAIPrompt gemini ideaT cat with
    | (.error msg, calls) =>
      ({ status := 500, error := some "Failed to generate prompt", details := some msg },
       db, calls)
    | (.ok gen, calls) =>
      match storageErr with
      | some msg =>
        ({ status := 500, error := some "Failed to generate prompt", details := some msg },
         db, calls)
      | none =>
        let p : Prompt :=
          { id := db.nextPromptId, user_id := userId, category := cat,
            idea := ideaT, generated_prompt := gen, created_at := now }
        ({ status := 200, success := some true, id := some p.id, prompt := some gen },
         { db with prompts := db.prompts ++ [p], nextPromptId := db.nextPromptId + 1 },
         calls)

/-- Newest-first comparison used to model ORDER BY created_at DESC. -/
def newerFirst (a b : Prompt) : Bool := b.created_at ≤ a.created_at

/-- SELECT * FROM prompts WHERE user_id = ? ORDER BY created_at DESC. -/
def listByUser (db : DB) (userId : Nat) : List Prompt :=
  (db.prompts.filter (fun p => p.user_id == userId)).mergeSort newerFirst

/-- GET /api/prompts, after authentication. -/
def listPromptsHandler (db : DB) (userId : Nat) (storageErr : Option String) :
    ListResponse × DB :=
  match storageErr with
  | some _ => ({ status := 500, error := some "Failed to fetch prompts" }, db)
  | none => ({ status := 200, results := some (listByUser db userId) }, db)

/-- DELETE /api/prompts/:id, after authentication. The DELETE statement
scopes on id and owning user in one predicate; zero affected rows yield
the single 404 for both the absent and the not-owned case. -/
def deletePromptHandler (db : DB) (userId : Nat) (pid : Nat) (storageErr : Option String) :
    DeleteResponse × DB :=
  match storageErr with
  | some _ => ({ status := 500, error := some "Failed to delete prompt" }, db)
  | none =>
    let remaining := db.prompts.filter (fun p => !(p.id == pid && p.user_id == userId))
    let affectedRows := db.prompts.length - remaining.length
    let db2 : DB := { db with prompts := remaining }
    if affectedRows = 0 then
      ({ status := 404, error := some "Prompt not found or user not authorized" }, db2)
    else
      ({ status := 200, message := some "Prompt deleted successfully" }, db2)

/-! ### Protected endpoints (middleware composed with the handlers) -/

/-- POST /api/generate-prompt including authenticateToken. -/
def apiGeneratePrompt (dec : String → TokenStr) (secret : String) (now : Nat)
    (authHeader : Option String) (idea category : Option String)
    (gemini : GeminiRequest → GeminiResult) (storageErr : Option String) (db : DB) :
    GenPromptResponse × DB × List GeminiRequest :=
  runProtected dec secret now authHeader
    ({ status := 401, error := some "Access token required" }, db, [])
    ({ status := 403, error := some "Invalid or expired token" }, db, [])
    (fun u => generatePromptHandler db u.userId idea category gemini storageErr now)

/-- GET /api/prompts including authenticateToken. -/
def apiListPrompts (dec : String → TokenStr) (secret : String) (now : Nat)
    (authHeader : Option String) (storageErr : Option String) (db : DB) :
    ListResponse × DB :=
  runProtected dec secret now authHeader
    ({ status := 401, error := some "Access token required" }, db)
    ({ status := 403, error := some "Invalid or expired token" }, db)
    (fun u => listPromptsHandler db u.userId storageErr)

/-- DELETE /api/prompts/:id including authenticateToken. -/
def apiDeletePrompt (dec : String → TokenStr) (secret : String) (now : Nat)
    (authHeader : Option String) (pid : Nat) (storageErr : Option String) (db : DB) :
    DeleteResponse × DB :=
  runProtected dec secret now authHeader
    ({ status := 401, error := some "Access token required" }, db)
    ({ status := 403, error := some "Invalid or expired token" }, db)
    (fun u => deletePromptHandler db u.userId pid storageErr)

/-- The final error-handling middleware: 500, with the underlying message
exposed only when NODE_ENV is development. -/
structure MiddlewareResponse where
  status : Nat
  error : String
  message : String
deriving DecidableEq

/-- The app.use error middleware of server.js. -/
def errorMiddleware (devMode : Bool) (errMsg : String) : MiddlewareResponse :=
  { status := 500, error := "Internal server error",
    message := if devMode then errMsg else "Something went wrong" }

/-! ### Concrete fixtures used by witnesses and counterexamples -/

/-- A registered user ann with a bcrypt-hashed password. -/
def annUser : User :=
  { id := 1, username := "ann", email := "a@x.com", password_hash := bcryptHash "pw12345" }

/-- A database holding exactly the user ann. -/
def dbAnn : DB :=
  { registered_users := [annUser], nextUserId := 2, prompts := [], nextPromptId := 1,
    login_history := [] }

/-- A successful Gemini response whose first candidate's first part is a
text with surrounding whitespace. -/
def dataW : GeminiResponse :=
  { candidates := some [{ content := some { parts := some [{ text := some "  Result  " }] } }] }

/-- A Gemini oracle answering every request with dataW. -/
def geminiW : GeminiRequest → GeminiResult := fun _ => .ok dataW

/-! ### Claim theorems -/

/-- C2: a token issued for user U (payload userId and username, expiry
24 hours) verifies to U's claims at any time strictly inside the validity
window; once the 24 hours have elapsed verification yields the single
failure value none, and the same none results from a malformed token or
a wrong-secret signature, so callers cannot distinguish the three. -/
theorem token_validity_window :
    (∀ (u : User) (secret : String) (iat now : Nat),
        now < iat + expiresInSeconds →
        jwtVerify (issueToken u.id u.username secret iat) secret now
          = some { userId := u.id, username := u.username }) ∧
    (∀ (u : User) (secret : String) (iat now : Nat),
        iat + expiresInSeconds ≤ now →
        jwtVerify (issueToken u.id u.username secret iat) secret now = none) ∧
    (∀ (raw secret : String) (now : Nat),
        jwtVerify (.garbage raw) secret now = none) ∧
    (∀ (c : TokenClaims) (iat : Nat) (s secret : String) (now : Nat),
        s ≠ secret → jwtVerify (.valid c iat s) secret now = none) := by
  refine ⟨?_, ?_, ?_, ?_⟩
  · intro u secret iat now h
    simp [issueToken, jwtSign, jwtVerify, h]
  · intro u secret iat now h
    simp only [issueToken, jwtSign, jwtVerify]
    rw [if_neg]
    rintro ⟨-, hlt⟩
    omega
  · intro raw secret now
    rfl
  · intro c iat s secret now h
    simp [jwtVerify, h]

/-- Witness for C2 at concrete inputs: one verification one second before
expiry, one at expiry, one malformed token, one wrong secret. -/
theorem token_validity_window_witness :
    jwtVerify (issueToken annUser.id annUser.username "s" 0) "s" 86399
      = some { userId := annUser.id, username := annUser.username } ∧
    jwtVerify (issueToken annUser.id annUser.username "s" 0) "s" 86400 = none ∧
    jwtVerify (.garbage "xyz") "s" 5 = none ∧
    jwtVerify (.valid { userId := 1, username := "ann" } 0 "t") "s" 5 = none :=
  ⟨token_validity_window.1 annUser "s" 0 86399 (by decide),
   token_validity_window.2.1 annUser "s" 0 86400 (by decide),
   token_validity_window.2.2.1 "xyz" "s" 5,
   token_validity_window.2.2.2 { userId := 1, username := "ann" } 0 "t" "s" 5 (by decide)⟩

/-- C1: registering with truthy username, email and password, when no
existing user holds that email or username, succeeds with status 201,
appends exactly the new user row (id from the auto-increment counter),
and returns a token that verifies back to the new user's id and
username. -/
theorem register_new_user (db : DB) (un em pw secret : String) (now : Nat)
    (hun : un ≠ "") (hem : em ≠ "") (hpw : pw ≠ "")
    (hfresh : ∀ u ∈ db.registered_users, u.email ≠ em ∧ u.username ≠ un) :
    (register db (some un) (some em) (some pw) secret now none).1.status = 201 ∧
    (register db (some un) (some em) (some pw) secret now none).2.registered_users
      = db.registered_users ++
        [{ id := db.nextUserId, username := un, email := em,
           password_hash := bcryptHash pw }] ∧
    (register db (some un) (some em) (some pw) secret now none).1.token
      = some (issueToken db.nextUserId un secret now) ∧
    jwtVerify (issueToken db.nextUserId un secret now) secret now
      = some { userId := db.nextUserId, username := un } := by
  have htr : (truthy (some un) && truthy (some em) && truthy (some pw)) = true := by
    simp [truthy, hun, hem, hpw]
  have hfil : db.registered_users.filter (fun u => u.email == em || u.username == un) = [] := by
    rw [List.filter_eq_nil_iff]
    intro u hu
    simp only [Bool.or_eq_true, beq_iff_eq]
    rintro (h | h)
    · exact (hfresh u hu).1 h
    · exact (hfresh u hu).2 h
  have hver : jwtVerify (issueToken db.nextUserId un secret now) secret now
      = some { userId := db.nextUserId, username := un } := by
    have hlt : now < now + expiresInSeconds := Nat.lt_add_of_pos_right (by decide)
    simp [issueToken, jwtSign, jwtVerify, hlt]
  refine ⟨?_, ?_, ?_, hver⟩ <;> simp [register, htr, hfil]

/-- Witness for C1: registering ann into the empty database. -/
theorem register_new_user_witness :
    (register emptyDB (some "ann") (some "a@x.com") (some "pw12345") "secret" 0 none).1.status
      = 201 ∧
    jwtVerify (issueToken emptyDB.nextUserId "ann" "secret" 0) "secret" 0
      = some { userId := emptyDB.nextUserId, username := "ann" } := by
  have h := register_new_user emptyDB "ann" "a@x.com" "pw12345" "secret" 0
    (by decide) (by decide) (by decide) (by intro u hu; simp [emptyDB] at hu)
  exact ⟨h.1, h.2.2.2⟩

/-- C4: registering with a truthy username, email and password when some
existing user already holds that email or that username fails with 400
and the duplicate-identity message, leaves the database unchanged (the
duplicate check precedes any insertion), and the outcome is the same for
every password supplied. -/
theorem register_duplicate (db : DB) (un em pw secret : String) (now : Nat)
    (hun : un ≠ "") (hem : em ≠ "") (hpw : pw ≠ "")
    (hdup : ∃ u ∈ db.registered_users, u.email = em ∨ u.username = un) :
    (register db (some un) (some em) (some pw) secret now none).1.status = 400 ∧
    (register db (some un) (some em) (some pw) secret now none).1.error
      = some "Email or username already exists" ∧
    (register db (some un) (some em) (some pw) secret now none).2 = db ∧
    ∀ pw2 : String, pw2 ≠ "" →
      register db (some un) (some em) (some pw2) secret now none
        = register db (some un) (some em) (some pw) secret now none := by
  have key : ∀ q : String, q ≠ "" →
      register db (some un) (some em) (some q) secret now none
        = ({ status := 400, error := some "Email or username already exists" }, db) := by
    intro q hq
    have htr : (truthy (some un) && truthy (some em) && truthy (some q)) = true := by
      simp [truthy, hun, hem, hq]
    obtain ⟨u, hu, hor⟩ := hdup
    have hmem : u ∈ db.registered_users.filter (fun v => v.email == em || v.username == un) := by
      rw [List.mem_filter]
      refine ⟨hu, ?_⟩
      rcases hor with h | h <;> simp [h]
    have hpos :
        0 < (db.registered_users.filter (fun v => v.email == em || v.username == un)).length :=
      List.length_pos.mpr (List.ne_nil_of_mem hmem)
    simp [register, htr, hpos]
  refine ⟨?_, ?_, ?_, ?_⟩
  · rw [key pw hpw]
  · rw [key pw hpw]
  · rw [key pw hpw]
  · intro pw2 h2
    rw [key pw2 h2, key pw hpw]

/-- Witness for C4: re-registering ann's email under another username and
an unrelated password fails with the duplicate-identity error. -/
theorem register_duplicate_witness :
    (register dbAnn (some "bob") (some "a@x.com") (some "other") "secret" 0 none).1.status
      = 400 ∧
    (register dbAnn (some "bob") (some "a@x.com") (some "other") "secret" 0 none).2 = dbAnn := by
  have h := register_duplicate dbAnn "bob" "a@x.com" "other" "secret" 0
    (by decide) (by decide) (by decide)
    ⟨annUser, by simp [dbAnn], Or.inl (by decide)⟩
  exact ⟨h.1, h.2.2.1⟩

/-- A stored prompt owned by ann (user id 1). -/
def travelPrompt : Prompt :=
  { id := 1, user_id := 1, category := "Writing", idea := "a travel blog",
    generated_prompt := "Result", created_at := 10 }

/-- The database holding ann and her one stored prompt. -/
def dbAnnPrompt : DB :=
  { dbAnn with prompts := [travelPrompt], nextPromptId := 2 }

/-- A decoding map under which the wire string bobtoken is a token signed
for user id 2 with the server secret, and every other string is
malformed. -/
def decW : String → TokenStr :=
  fun s => if s = "bobtoken" then .valid { userId := 2, username := "bob" } 0 "secret"
           else .garbage s

/-- C3: a delete request for prompt id pid by an authenticated user whose
id owns no prompt row with that id (the row is absent or owned by someone
else) answers with the single 404 response, leaves the database
unchanged, and any prompt row with that id still appears in its owner's
listing afterward. -/
theorem delete_foreign_prompt (dec : String → TokenStr) (secret : String) (now : Nat)
    (authHeader : Option String) (ts : String) (u : TokenClaims) (db : DB) (pid : Nat)
    (htok : extractToken authHeader = some ts)
    (hver : jwtVerify (dec ts) secret now = some u)
    (h : ∀ p ∈ db.prompts, p.id = pid → p.user_id ≠ u.userId) :
    (apiDeletePrompt dec secret now authHeader pid none db).1
      = { status := 404, error := some "Prompt not found or user not authorized" } ∧
    (apiDeletePrompt dec secret now authHeader pid none db).2 = db ∧
    ∀ p ∈ db.prompts, p.id = pid →
      p ∈ listByUser (apiDeletePrompt dec secret now authHeader pid none db).2 p.user_id := by
  have hrun : apiDeletePrompt dec secret now authHeader pid none db
      = deletePromptHandler db u.userId pid none := by
    simp [apiDeletePrompt, runProtected, htok, hver]
  have hfil : db.prompts.filter (fun p => !(p.id == pid && p.user_id == u.userId))
      = db.prompts := by
    rw [List.filter_eq_self]
    intro p hp
    by_cases hid : p.id = pid
    · have hne := h p hp hid
      simp [hid, hne]
    · simp [hid]
  have hhandler : deletePromptHandler db u.userId pid none
      = ({ status := 404, error := some "Prompt not found or user not authorized" }, db) := by
    simp only [deletePromptHandler, hfil]
    simp
  refine ⟨?_, ?_, ?_⟩
  · rw [hrun, hhandler]
  · rw [hrun, hhandler]
  · intro p hp hid
    rw [hrun, hhandler]
    rw [listByUser, List.mem_mergeSort, List.mem_filter]
    exact ⟨hp, by simp⟩

/-- Witness for C3: bob (user id 2), authenticated with a valid token,
tries to delete ann's prompt (id 1, owned by user id 1); the store is
unchanged and ann still sees the prompt. -/
theorem delete_foreign_prompt_witness :
    (apiDeletePrompt decW "secret" 5 (some "Bearer bobtoken") 1 none dbAnnPrompt).1
      = { status := 404, error := some "Prompt not found or user not authorized" } ∧
    (apiDeletePrompt decW "secret" 5 (some "Bearer bobtoken") 1 none dbAnnPrompt).2
      = dbAnnPrompt ∧
    travelPrompt
      ∈ listByUser (apiDeletePrompt decW "secret" 5 (some "Bearer bobtoken") 1 none dbAnnPrompt).2
          travelPrompt.user_id := by
  have h := delete_foreign_prompt decW "secret" 5 (some "Bearer bobtoken") "bobtoken"
    { userId := 2, username := "bob" } dbAnnPrompt 1
    (by decide) (by decide)
    (by intro p hp hid
        simp [dbAnnPrompt, dbAnn] at hp
        subst hp
        decide)
  exact ⟨h.1, h.2.1, h.2.2 travelPrompt (by simp [dbAnnPrompt, dbAnn]) rfl⟩

/-- C7: the prompts listing for a user is a permutation of exactly the
prompt rows owned by that user, is sorted newest-first by creation
timestamp, and is what the handler returns with status 200. -/
theorem list_prompts_ordered (db : DB) (uid : Nat) :
    (listByUser db uid).Perm (db.prompts.filter (fun p => p.user_id == uid)) ∧
    (∀ p : Prompt, p ∈ listByUser db uid ↔ p ∈ db.prompts ∧ p.user_id = uid) ∧
    (listByUser db uid).Pairwise (fun a b => b.created_at ≤ a.created_at) ∧
    (listPromptsHandler db uid none).1
      = { status := 200, results := some (listByUser db uid) } := by
  refine ⟨List.mergeSort_perm _ _, ?_, ?_, rfl⟩
  · intro p
    rw [listByUser, List.mem_mergeSort, List.mem_filter]
    simp
  · have htrans : ∀ a b c : Prompt,
        newerFirst a b = true → newerFirst b c = true → newerFirst a c = true := by
      intro a b c hab hbc
      simp only [newerFirst, decide_eq_true_eq] at *
      omega
    have htotal : ∀ a b : Prompt, (newerFirst a b || newerFirst b a) = true := by
      intro a b
      simp only [newerFirst, Bool.or_eq_true, decide_eq_true_eq]
      omega
    have hp := List.sorted_mergeSort htrans htotal
      (db.prompts.filter (fun p => p.user_id == uid))
    exact hp.imp (by intro a b hab; simpa [newerFirst] using hab)

/-- C8 counterexample: a login attempt with both fields present whose
email matches no registered user is answered 401 and creates no
LoginAttempt record — the login_history table stays empty. -/
theorem login_unknown_email_no_record :
    (login dbAnn (some "b@y.com") (some "pw12345") "secret" 0 none).1.status = 401 ∧
    (login dbAnn (some "b@y.com") (some "pw12345") "secret" 0 none).2 = dbAnn ∧
    (login dbAnn (some "b@y.com") (some "pw12345") "secret" 0 none).2.login_history = [] := by
  refine ⟨?_, ?_, ?_⟩ <;> decide

/-- C8 amended: on every login attempt with both fields present whose
email matches a registered user, a LoginAttempt record with that user's
id and the boolean outcome of the password check is appended, whether the
check succeeds or fails; an attempt whose email matches no user is
answered 401 with the database (hence login_history) unchanged. -/
theorem login_attempt_logged (db : DB) (em pw secret : String) (now : Nat) (u : User)
    (hem : em ≠ "") (hpw : pw ≠ "")
    (hfound : db.registered_users.find? (fun v => v.email == em) = some u) :
    (login db (some em) (some pw) secret now none).2.login_history
      = db.login_history ++ [{ user_id := u.id, success := bcryptCompare pw u.password_hash }] ∧
    ((login db (some em) (some pw) secret now none).1.status = 200
       ∨ (login db (some em) (some pw) secret now none).1.status = 401) ∧
    ∀ db2 : DB, db2.registered_users.find? (fun v => v.email == em) = none →
      (login db2 (some em) (some pw) secret now none).2 = db2 ∧
      (login db2 (some em) (some pw) secret now none).1.status = 401 := by
  have htr : (truthy (some em) && truthy (some pw)) = true := by simp [truthy, hem, hpw]
  refine ⟨?_, ?_, ?_⟩
  · cases hvp : bcryptCompare pw u.password_hash <;> simp [login, htr, hfound, hvp]
  · cases hvp : bcryptCompare pw u.password_hash <;> simp [login, htr, hfound, hvp]
  · intro db2 hnone
    constructor <;> simp [login, htr, hnone]

/-- Witness for the amended C8: ann logs in with her correct password and
one success record is appended; the same theorem also covers the
unknown-email branch at a concrete database. -/
theorem login_attempt_logged_witness :
    (login dbAnn (some "a@x.com") (some "pw12345") "secret" 0 none).2.login_history
      = [{ user_id := annUser.id, success := bcryptCompare "pw12345" annUser.password_hash }] ∧
    (login emptyDB (some "a@x.com") (some "pw12345") "secret" 0 none).2 = emptyDB := by
  have h := login_attempt_logged dbAnn "a@x.com" "pw12345" "secret" 0 annUser
    (by decide) (by decide) (by decide)
  exact ⟨by simpa [dbAnn] using h.1, (h.2.2 emptyDB (by decide)).1⟩

/-- Helper: the mediator submits exactly one request, the one built from
its idea and category, whatever the oracle answers. -/
theorem generateAIPrompt_calls (gemini : GeminiRequest → GeminiResult) (idea category : String) :
    (generateAIPrompt gemini idea category).2 = [buildGeminiRequest idea category] := by
  simp only [generateAIPrompt]
  cases gemini (buildGeminiRequest idea category) with
  | httpError s b => rfl
  | netError m => rfl
  | ok data =>
    cases ht : generatedTextOf data with
    | none => simp [ht]
    | some t => by_cases h0 : t = "" <;> simp [ht, h0]

/-- C5: a generate-prompt request through the authenticated endpoint
whose idea is absent, empty or whitespace-only is rejected with 400, the
database is unchanged (no prompt row inserted), and no request is
submitted to the external generation endpoint. -/
theorem generate_empty_idea_rejected (dec : String → TokenStr) (secret : String) (now : Nat)
    (authHeader : Option String) (ts : String) (u : TokenClaims)
    (idea category : Option String) (gemini : GeminiRequest → GeminiResult)
    (storageErr : Option String) (db : DB)
    (htok : extractToken authHeader = some ts)
    (hver : jwtVerify (dec ts) secret now = some u)
    (hidea : ideaEmpty idea = true) :
    (apiGeneratePrompt dec secret now authHeader idea category gemini storageErr db).1
      = { status := 400, error := some "Idea is required and cannot be empty" } ∧
    (apiGeneratePrompt dec secret now authHeader idea category gemini storageErr db).2.1 = db ∧
    (apiGeneratePrompt dec secret now authHeader idea category gemini storageErr db).2.2 = [] := by
  have hrun : apiGeneratePrompt dec secret now authHeader idea category gemini storageErr db
      = generatePromptHandler db u.userId idea category gemini storageErr now := by
    simp [apiGeneratePrompt, runProtected, htok, hver]
  refine ⟨?_, ?_, ?_⟩ <;> rw [hrun] <;> simp [generatePromptHandler, hidea]

/-- Witness for C5: bob, with a valid token, submits a whitespace-only
idea; the response is 400 and neither the store nor the oracle is
touched. -/
theorem generate_empty_idea_rejected_witness :
    (apiGeneratePrompt decW "secret" 5 (some "Bearer bobtoken") (some "   ") none
        geminiW none dbAnn).1
      = { status := 400, error := some "Idea is required and cannot be empty" } ∧
    (apiGeneratePrompt decW "secret" 5 (some "Bearer bobtoken") (some "   ") none
        geminiW none dbAnn).2.1 = dbAnn ∧
    (apiGeneratePrompt decW "secret" 5 (some "Bearer bobtoken") (some "   ") none
        geminiW none dbAnn).2.2 = [] :=
  generate_empty_idea_rejected decW "secret" 5 (some "Bearer bobtoken") "bobtoken"
    { userId := 2, username := "bob" } (some "   ") none geminiW none dbAnn
    (by decide) (by decide) (by decide)

/-- C6: the mediator submits exactly one request; that request embeds
the category and the idea verbatim inside the fixed instruction template
and carries the fixed generation parameters temperature 0.7, topK 40,
topP 0.95, maxOutputTokens 1024; on a successful response it returns the
first candidate's first text segment with surrounding whitespace trimmed;
and the handler passes the trimmed idea with category defaulting through
defaultCategory, which yields General when no category is supplied. -/
theorem mediator_request_shape (gemini : GeminiRequest → GeminiResult) (idea category : String) :
    (generateAIPrompt gemini idea category).2 = [buildGeminiRequest idea category] ∧
    buildGeminiRequest idea category
      = { contents := [{ parts := [{ text := mpHead ++ category ++ mpMid ++ idea ++ mpTail }] }],
          generationConfig :=
            { temperature := 7/10, topK := 40, topP := 95/100, maxOutputTokens := 1024 } } ∧
    (∀ (data : GeminiResponse) (s : String),
        gemini (buildGeminiRequest idea category) = .ok data →
        rawFirstText data = some s → jsTrim s ≠ "" →
        (generateAIPrompt gemini idea category).1 = .ok (jsTrim s)) ∧
    defaultCategory none = "General" ∧ defaultCategory (some "") = "General" ∧
    (∀ (db : DB) (uid : Nat) (storageErr : Option String) (now : Nat) (cat2 : Option String),
        ideaEmpty (some idea) = false →
        (generatePromptHandler db uid (some idea) cat2 gemini storageErr now).2.2
          = [buildGeminiRequest (jsTrim idea) (defaultCategory cat2)]) := by
  refine ⟨generateAIPrompt_calls gemini idea category, rfl, ?_, rfl, rfl, ?_⟩
  · intro data s hg hraw hne
    simp [generateAIPrompt, hg, generatedTextOf, hraw, hne]
  · intro db uid storageErr now cat2 hne
    rcases hg : generateAIPrompt gemini (jsTrim idea) (defaultCategory cat2) with ⟨res, calls⟩
    have hcalls : calls = [buildGeminiRequest (jsTrim idea) (defaultCategory cat2)] := by
      rw [← generateAIPrompt_calls gemini (jsTrim idea) (defaultCategory cat2), hg]
    cases res with
    | error msg =>
      simp [generatePromptHandler, hne, hg, hcalls]
    | ok gen =>
      cases storageErr <;> simp [generatePromptHandler, hne, hg, hcalls]

/-- Witness for C6: the constant oracle geminiW answers with a text that
trims to Result; the handler with no category submits the General
request. -/
theorem mediator_request_shape_witness :
    (generateAIPrompt geminiW "a travel blog" "Writing").1 = .ok (jsTrim "  Result  ") ∧
    (generatePromptHandler dbAnn 1 (some " a travel blog ") none geminiW none 0).2.2
      = [buildGeminiRequest (jsTrim " a travel blog ") (defaultCategory none)] := by
  have h := mediator_request_shape geminiW "a travel blog" "Writing"
  have h2 := mediator_request_shape geminiW " a travel blog " "Writing"
  exact ⟨h.2.2.1 dataW "  Result  " rfl rfl (by decide),
         h2.2.2.2.2.2 dbAnn 1 none 0 none (by decide)⟩

/-- C9 counterexample: in the generate-prompt handler a storage failure
(the prompts INSERT throwing) is answered 500 with the raw storage error
text in the details field — the detail is not suppressed and no
development-mode check is involved. -/
theorem storage_error_detail_leaked :
    (generatePromptHandler dbAnn 1 (some "a travel blog") (some "Writing") geminiW
        (some "ECONNREFUSED 127.0.0.1:3306") 0).1.status = 500 ∧
    (generatePromptHandler dbAnn 1 (some "a travel blog") (some "Writing") geminiW
        (some "ECONNREFUSED 127.0.0.1:3306") 0).1.details
      = some "ECONNREFUSED 127.0.0.1:3306" := by
  exact ⟨rfl, rfl⟩

/-- C9 amended: storage failures always yield status 500; the register,
login, list and delete handlers answer with a fixed generic message
independent of the failure text (in every mode), while the generate-prompt
handler forwards the storage failure's message in its details field (its
single catch does not distinguish storage from upstream failures); an
uncaught fault reaching the error middleware carries its message only in
development mode. -/
theorem storage_error_statuses (db : DB) (secret : String) (now : Nat) (msg : String)
    (un em pw : String) (hun : un ≠ "") (hem : em ≠ "") (hpw : pw ≠ "")
    (uid pid : Nat) (idea : String) (hidea : ideaEmpty (some idea) = false)
    (category : Option String) (gemini : GeminiRequest → GeminiResult)
    (data : GeminiResponse) (s : String)
    (hg : gemini (buildGeminiRequest (jsTrim idea) (defaultCategory category)) = .ok data)
    (hraw : rawFirstText data = some s) (hne : jsTrim s ≠ "") :
    (register db (some un) (some em) (some pw) secret now (some msg)).1
      = { status := 500, error := some "Server error during registration" } ∧
    (login db (some em) (some pw) secret now (some msg)).1
      = { status := 500, error := some "Server error during login" } ∧
    (listPromptsHandler db uid (some msg)).1
      = { status := 500, error := some "Failed to fetch prompts" } ∧
    (deletePromptHandler db uid pid (some msg)).1
      = { status := 500, error := some "Failed to delete prompt" } ∧
    (generatePromptHandler db uid (some idea) category gemini (some msg) now).1
      = { status := 500, error := some "Failed to generate prompt", details := some msg } ∧
    (∀ m2 : String, errorMiddleware false m2
        = { status := 500, error := "Internal server error",
            message := "Something went wrong" }) ∧
    errorMiddleware true msg
      = { status := 500, error := "Internal server error", message := msg } := by
  have htr : (truthy (some un) && truthy (some em) && truthy (some pw)) = true := by
    simp [truthy, hun, hem, hpw]
  have htr2 : (truthy (some em) && truthy (some pw)) = true := by
    simp [truthy, hem, hpw]
  have hgen : generateAIPrompt gemini (jsTrim idea) (defaultCategory category)
      = (.ok (jsTrim s), [buildGeminiRequest (jsTrim idea) (defaultCategory category)]) := by
    have hcalls := generateAIPrompt_calls gemini (jsTrim idea) (defaultCategory category)
    have hres : (generateAIPrompt gemini (jsTrim idea) (defaultCategory category)).1
        = .ok (jsTrim s) := by
      simp [generateAIPrompt, hg, generatedTextOf, hraw, hne]
    rw [Prod.ext_iff]
    exact ⟨hres, hcalls⟩
  refine ⟨?_, ?_, rfl, rfl, ?_, fun m2 => rfl, rfl⟩
  · simp [register, htr]
  · simp [login, htr2]
  · simp [generatePromptHandler, hidea, hgen]

/-- Witness for the amended C9 at concrete inputs. -/
theorem storage_error_statuses_witness :
    (register dbAnn (some "bob") (some "b@y.com") (some "pw") "secret" 0 (some "boom")).1
      = { status := 500, error := some "Server error during registration" } ∧
    (generatePromptHandler dbAnn 1 (some " a travel blog ") (some "Writing") geminiW
        (some "boom") 0).1
      = { status := 500, error := some "Failed to generate prompt", details := some "boom" } ∧
    errorMiddleware false "boom"
      = { status := 500, error := "Internal server error",
          message := "Something went wrong" } := by
  have h := storage_error_statuses dbAnn "secret" 0 "boom" "bob" "b@y.com" "pw"
    (by decide) (by decide) (by decide) 1 1 " a travel blog " (by decide)
    (some "Writing") geminiW dataW "  Result  " rfl rfl (by decide)
  exact ⟨h.1, h.2.2.2.2.1, h.2.2.2.2.2.1 "boom"⟩

/-- C10: on the protected endpoints, a missing token (absent header, or
no piece, or an empty piece, after the first space) yields exactly 401
and a present token failing verification yields exactly 403; in both
cases the result is the rejection outcome for every conceivable handler,
so the endpoint handler never runs — observably, the database is
unchanged and no request reaches the generation oracle. -/
theorem protected_endpoints_auth (dec : String → TokenStr) (secret : String) (now : Nat) :
    (∀ (α : Type) (onM onI : α) (f : TokenClaims → α) (ah : Option String),
        extractToken ah = none → runProtected dec secret now ah onM onI f = onM) ∧
    (∀ (α : Type) (onM onI : α) (f : TokenClaims → α) (ah : Option String) (ts : String),
        extractToken ah = some ts → jwtVerify (dec ts) secret now = none →
        runProtected dec secret now ah onM onI f = onI) ∧
    (∀ (ah idea category : Option String) (gemini : GeminiRequest → GeminiResult)
        (storageErr : Option String) (db : DB),
        extractToken ah = none →
        apiGeneratePrompt dec secret now ah idea category gemini storageErr db
          = ({ status := 401, error := some "Access token required" }, db, [])) ∧
    (∀ (ah : Option String) (storageErr : Option String) (db : DB),
        extractToken ah = none →
        apiListPrompts dec secret now ah storageErr db
          = ({ status := 401, error := some "Access token required" }, db)) ∧
    (∀ (ah : Option String) (pid : Nat) (storageErr : Option String) (db : DB),
        extractToken ah = none →
        apiDeletePrompt dec secret now ah pid storageErr db
          = ({ status := 401, error := some "Access token required" }, db)) ∧
    (∀ (ah : Option String) (ts : String) (idea category : Option String)
        (gemini : GeminiRequest → GeminiResult) (storageErr : Option String) (db : DB),
        extractToken ah = some ts → jwtVerify (dec ts) secret now = none →
        apiGeneratePrompt dec secret now ah idea category gemini storageErr db
          = ({ status := 403, error := some "Invalid or expired token" }, db, [])) ∧
    (∀ (ah : Option String) (ts : String) (storageErr : Option String) (db : DB),
        extractToken ah = some ts → jwtVerify (dec ts) secret now = none →
        apiListPrompts dec secret now ah storageErr db
          = ({ status := 403, error := some "Invalid or expired token" }, db)) ∧
    (∀ (ah : Option String) (ts : String) (pid : Nat) (storageErr : Option String) (db : DB),
        extractToken ah = some ts → jwtVerify (dec ts) secret now = none →
        apiDeletePrompt dec secret now ah pid storageErr db
          = ({ status := 403, error := some "Invalid or expired token" }, db)) := by
  refine ⟨?_, ?_, ?_, ?_, ?_, ?_, ?_, ?_⟩
  · intro α onM onI f ah h
    simp [runProtected, h]
  · intro α onM onI f ah ts h hv
    simp [runProtected, h, hv]
  · intro ah idea category gemini storageErr db h
    simp [apiGeneratePrompt, runProtected, h]
  · intro ah storageErr db h
    simp [apiListPrompts, runProtected, h]
  · intro ah pid storageErr db h
    simp [apiDeletePrompt, runProtected, h]
  · intro ah ts idea category gemini storageErr db h hv
    simp [apiGeneratePrompt, runProtected, h, hv]
  · intro ah ts storageErr db h hv
    simp [apiListPrompts, runProtected, h, hv]
  · intro ah ts pid storageErr db h hv
    simp [apiDeletePrompt, runProtected, h, hv]

/-- Witness for C10: a header with no token piece is answered 401, a
malformed token 403, on concrete endpoints and on an arbitrary handler
outcome type. -/
theorem protected_endpoints_auth_witness :
    runProtected decW "secret" 5 (some "Bearer") 0 1 (fun _ => 2) = 0 ∧
    apiListPrompts decW "secret" 5 none none dbAnn
      = ({ status := 401, error := some "Access token required" }, dbAnn) ∧
    apiDeletePrompt decW "secret" 5 (some "Bearer nope") 1 none dbAnn
      = ({ status := 403, error := some "Invalid or expired token" }, dbAnn) ∧
    apiGeneratePrompt decW "secret" 5 (some "Bearer nope") (some "idea") none geminiW none dbAnn
      = ({ status := 403, error := some "Invalid or expired token" }, dbAnn, []) := by
  have h := protected_endpoints_auth decW "secret" 5
  exact ⟨h.1 Nat 0 1 (fun _ => 2) (some "Bearer") (by decide),
         h.2.2.2.1 none none dbAnn rfl,
         h.2.2.2.2.2.2.2 (some "Bearer nope") "nope" 1 none dbAnn (by decide) (by decide),
         h.2.2.2.2.2.1 (some "Bearer nope") "nope" (some "idea") none geminiW none dbAnn
           (by decide) (by decide)⟩

end Idea2Prompt
